import Mathlib

/-!
Shallow embedding of the three-js toon-shader repository: the edge-detection
fragment shader (`src/ToonShader.ts`), the toon-material derivation
(`src/ToonMaterials.ts`) and the demo model-loading / render-loop state
machines (`src/demo.ts`), together with theorems settling the specification
claims about them.
-/

namespace ToonShader

/-- GLSL `vec2` as a pair of reals. -/
abbrev Vec2 := ℝ × ℝ

/-- GLSL `vec3` as a triple of reals. -/
abbrev Vec3 := ℝ × ℝ × ℝ

/-- GLSL `vec4` as a quadruple of reals. -/
abbrev Vec4 := ℝ × ℝ × ℝ × ℝ

/-- Componentwise subtraction of `vec3`, as in `n_r - n_l`. -/
def sub3 (a b : Vec3) : Vec3 := (a.1 - b.1, a.2.1 - b.2.1, a.2.2 - b.2.2)

/-- GLSL `dot` on `vec3`. -/
def dot3 (a b : Vec3) : ℝ := a.1 * b.1 + a.2.1 * b.2.1 + a.2.2 * b.2.2

/-- GLSL `clamp(x, lo, hi) = min(max(x, lo), hi)`. -/
noncomputable def glClamp (x lo hi : ℝ) : ℝ := min (max x lo) hi

/-- GLSL `mix(x, y, a) = x*(1-a) + y*a`, componentwise on `vec4`. -/
def mix4 (x y : Vec4) (a : ℝ) : Vec4 :=
  (x.1 * (1 - a) + y.1 * a,
   x.2.1 * (1 - a) + y.2.1 * a,
   x.2.2.1 * (1 - a) + y.2.2.1 * a,
   x.2.2.2 * (1 - a) + y.2.2.2 * a)

/-- GLSL `smoothstep(e0, e1, x)`: Hermite interpolation of the clamped ratio. -/
noncomputable def smoothstep (e0 e1 x : ℝ) : ℝ :=
  let t := glClamp ((x - e0) / (e1 - e0)) 0 1
  t * t * (3 - 2 * t)

/-- Uniforms of `EdgeDetectionShader.fragmentShader`; the three texture
samplers are modelled as functions from uv coordinates to sampled values
(`tDepth` gives the `.r` channel, `tNormal` the `.rgb` channels). -/
structure EdgeUniforms where
  tDiffuse : Vec2 → Vec4
  tDepth : Vec2 → ℝ
  tNormal : Vec2 → Vec3
  resolution : Vec2
  cameraNear : ℝ
  cameraFar : ℝ
  outlineThickness : ℝ
  outlineColor : Vec3

/-- Core of `getLinearDepth`: `z_n = 2*z_b - 1` and the perspective
linearization `(2*near*far) / (far + near - z_n*(far - near))`. -/
noncomputable def linearizeDepth (near far zb : ℝ) : ℝ :=
  let zn := 2 * zb - 1
  (2 * near * far) / (far + near - zn * (far - near))

/-- Shader function `getLinearDepth(uv)`: sample `tDepth` and linearize. -/
noncomputable def getLinearDepth (u : EdgeUniforms) (uv : Vec2) : ℝ :=
  linearizeDepth u.cameraNear u.cameraFar (u.tDepth uv)

/-- Shader local `texel = vec2(1/resolution.x, 1/resolution.y) * outlineThickness`. -/
noncomputable def texel (u : EdgeUniforms) : Vec2 :=
  (1 / u.resolution.1 * u.outlineThickness, 1 / u.resolution.2 * u.outlineThickness)

/-- Shader depth-edge indicator: `smoothstep(0.5, 0.5 + 0.1, depthEdge)` where
`depthEdge` is the norm of the horizontal/vertical linear-depth differences. -/
noncomputable def depthIndicator (u : EdgeUniforms) (uv : Vec2) : ℝ :=
  let t := texel u
  let dT := getLinearDepth u (uv.1, uv.2 + t.2)
  let dB := getLinearDepth u (uv.1, uv.2 - t.2)
  let dL := getLinearDepth u (uv.1 - t.1, uv.2)
  let dR := getLinearDepth u (uv.1 + t.1, uv.2)
  let depthDiffX := dR - dL
  let depthDiffY := dT - dB
  let depthEdge := Real.sqrt (depthDiffX * depthDiffX + depthDiffY * depthDiffY)
  smoothstep 0.5 (0.5 + 0.1) depthEdge

/-- Shader normal-edge indicator: `smoothstep(0.08, 0.08 + 0.05, normalEdgeSq)`
where `normalEdgeSq = dot(dX, dX) + dot(dY, dY)` over normal-buffer samples. -/
noncomputable def normalIndicator (u : EdgeUniforms) (uv : Vec2) : ℝ :=
  let t := texel u
  let nT := u.tNormal (uv.1, uv.2 + t.2)
  let nB := u.tNormal (uv.1, uv.2 - t.2)
  let nL := u.tNormal (uv.1 - t.1, uv.2)
  let nR := u.tNormal (uv.1 + t.1, uv.2)
  let normalDiffX := sub3 nR nL
  let normalDiffY := sub3 nT nB
  let normalEdgeSq := dot3 normalDiffX normalDiffX + dot3 normalDiffY normalDiffY
  smoothstep 0.08 (0.08 + 0.05) normalEdgeSq

/-- Shader local `edge = max(depthIndicator, normalIndicator)`. -/
noncomputable def edgeValue (u : EdgeUniforms) (uv : Vec2) : ℝ :=
  max (depthIndicator u uv) (normalIndicator u uv)

/-- Shader local `lineAlpha = clamp(12.0 / (2.0 + centerDepth), 0.0, 1.0)`. -/
noncomputable def lineAlpha (centerDepth : ℝ) : ℝ :=
  glClamp (12 / (2 + centerDepth)) 0 1

/-- Body of `main()` of `EdgeDetectionShader.fragmentShader`: skybox
pass-through for `rawDepth >= 0.9999`, otherwise outline blending when the
combined edge value exceeds `0.1`. -/
noncomputable def fragMain (u : EdgeUniforms) (uv : Vec2) : Vec4 :=
  let originalColor := u.tDiffuse uv
  let rawDepth := u.tDepth uv
  if 0.9999 ≤ rawDepth then
    originalColor
  else
    let centerDepth := getLinearDepth u uv
    let edge := edgeValue u uv
    if 0.1 < edge then
      mix4 originalColor (u.outlineColor.1, u.outlineColor.2.1, u.outlineColor.2.2, 1)
        (lineAlpha centerDepth * edge)
    else
      originalColor

end ToonShader

namespace ToonMaterials

/-- Face-culling side of a material (`THREE.FrontSide` etc.). -/
inductive Side where
  | front
  | back
  | double
deriving DecidableEq

/-- Color-space tag of a texture (`texture.colorSpace`). -/
inductive ColorSpace where
  | noColorSpace
  | srgb
  | linearSRGB
deriving DecidableEq

/-- Texture value: an identifier for the underlying image data plus the
mutable color-space tag. -/
structure Texture where
  texId : ℕ
  colorSpace : ColorSpace
deriving DecidableEq

/-- Material parameters read and written by `applyToonMaterial`: base color
as a hex value (`none` when the source material has no `.color`), optional
albedo texture, optional gradient map, transparency flag, opacity and
face-culling side. -/
structure Material where
  color : Option ℕ
  map : Option Texture
  gradientMap : Option Texture
  transparent : Bool
  opacity : ℚ
  side : Side
deriving DecidableEq

/-- Derivation of one `MeshToonMaterial` from one source material slot
(`applyToonMaterial`, the `materials.forEach` body): `color: stdMat.color ||
0xffffff`, `map: stdMat.map || null`, inject the gradient map, copy
`transparent`, `opacity`, `side`, then tag a present map as sRGB. -/
def deriveToonMaterial (gradientMap : Texture) (mat : Material) : Material :=
  { color := some (mat.color.getD 0xffffff)
    map := mat.map.map (fun t => { t with colorSpace := ColorSpace.srgb })
    gradientMap := some gradientMap
    transparent := mat.transparent
    opacity := mat.opacity
    side := mat.side }

/-- Value of `mesh.material` in three-js: either a bare material or an
array of materials. -/
inductive MatSlot where
  | single (m : Material)
  | collection (ms : List Material)
deriving DecidableEq

/-- Normalization `Array.isArray(mesh.material) ? mesh.material : [mesh.material]`. -/
def slotMaterials : MatSlot → List Material
  | MatSlot.single m => [m]
  | MatSlot.collection ms => ms

/-- Whether a `mesh.material` value is a bare (non-collection) material. -/
def isSingle : MatSlot → Bool
  | MatSlot.single _ => true
  | MatSlot.collection _ => false

/-- Per-mesh body of `applyToonMaterial`: derive one toon material per slot
and assign `newMaterials.length === 1 ? newMaterials[0] : newMaterials`. -/
def applyToonSlot (g : Texture) (s : MatSlot) : MatSlot :=
  let newMaterials := (slotMaterials s).map (deriveToonMaterial g)
  match newMaterials with
  | [m] => MatSlot.single m
  | ms => MatSlot.collection ms

/-- Mesh-specific data of a scene-graph node: geometry identifier and the
material slot. -/
structure MeshData where
  geometry : ℕ
  material : MatSlot
deriving DecidableEq

/-- Data carried by every scene-graph node: name, an abstract transform, and
mesh data exactly when `isMesh` holds. -/
structure NodeData where
  name : String
  transform : ℤ
  meshData : Option MeshData
deriving DecidableEq

/-- Scene-graph object: node data plus children (`THREE.Object3D`). -/
inductive Obj where
  | node (data : NodeData) (children : List Obj)

/-- Action of the `applyToonMaterial` traversal callback on one node datum:
meshes get their material slot rewritten, other nodes are untouched. -/
def applyToonData (g : Texture) (d : NodeData) : NodeData :=
  match d.meshData with
  | none => d
  | some md => { d with meshData := some { md with material := applyToonSlot g md.material } }

mutual

/-- Traversal of `applyToonMaterial` over an object and its descendants. -/
def applyToonObj (g : Texture) : Obj → Obj
  | Obj.node d cs => Obj.node (applyToonData g d) (applyToonList g cs)

/-- Traversal of `applyToonMaterial` over a list of children. -/
def applyToonList (g : Texture) : List Obj → List Obj
  | [] => []
  | c :: cs => applyToonObj g c :: applyToonList g cs

end

/-- Replacement of the material slot of a mesh datum by the empty
collection, used to erase exactly the material content of a node. -/
def stripData (d : NodeData) : NodeData :=
  { d with meshData := d.meshData.map (fun md => { md with material := MatSlot.collection [] }) }

mutual

/-- Erasure of all material slots in a tree; two trees with equal erasures
agree on everything except materials. -/
def stripObj : Obj → Obj
  | Obj.node d cs => Obj.node (stripData d) (stripList cs)

/-- Erasure of all material slots in a list of children. -/
def stripList : List Obj → List Obj
  | [] => []
  | c :: cs => stripObj c :: stripList cs

end

end ToonMaterials

namespace Demo

/-- Display-relevant state of `demo.ts`: model identifiers currently added
to the scene, the `currentModel` reference, and the identifiers whose
geometry and materials have been disposed. -/
structure DisplayState where
  sceneModels : List ℕ
  currentModel : Option ℕ
  disposed : List ℕ
deriving DecidableEq

/-- Outcome of the asynchronous GLTF load: success with a fresh wrapper
identifier, or a fetch/parse error. -/
inductive LoadResult where
  | ok (modelId : ℕ)
  | err
deriving DecidableEq

/-- Cleanup prologue of `loadModel`: when a current model exists it is
removed from the scene, deep-disposed, and the reference is cleared. -/
def cleanupCurrent (st : DisplayState) : DisplayState :=
  match st.currentModel with
  | none => st
  | some m =>
    { sceneModels := st.sceneModels.filter (fun x => x ≠ m)
      currentModel := none
      disposed := st.disposed ++ [m] }

/-- The `loadModel` flow of `demo.ts` for one load with a known outcome:
the cleanup prologue runs unconditionally before the loader callback fires;
on success the new wrapper is added and becomes current, on error only
`console.error` / `alert` run (the returned flag records that the error was
reported) and control returns normally. -/
def loadModel (st : DisplayState) (res : LoadResult) : DisplayState × Bool :=
  let st1 := cleanupCurrent st
  match res with
  | LoadResult.ok m =>
    ({ st1 with sceneModels := st1.sceneModels ++ [m], currentModel := some m }, false)
  | LoadResult.err => (st1, true)

end Demo

namespace Pipeline

/-- Names of the render steps issued by the `render` closure of
`createToonPostProcessing`. -/
inductive PassName where
  | normalPass
  | depthPass
  | composite
deriving DecidableEq

/-- The materials a scene-wide override can bind. -/
inductive OverrideMat where
  | normalMaterial
deriving DecidableEq

/-- Render targets bound by the `render` closure. -/
inductive Target where
  | normalRT
  | depthRT
deriving DecidableEq

/-- Mutable state touched by the `render` closure: `scene.overrideMaterial`
and the bound render target (`none` is the visible framebuffer). -/
structure PipeState where
  overrideMaterial : Option OverrideMat
  renderTarget : Option Target
deriving DecidableEq

/-- One recorded render call: which pass ran and the value of
`scene.overrideMaterial` at the moment the pass read the scene. -/
structure RenderEvent where
  pass : PassName
  overrideSeen : Option OverrideMat
deriving DecidableEq

/-- The `render` closure of `createToonPostProcessing`: set the normal
override and render into the normal target, clear the override and render
into the depth target, then composite to the framebuffer; returns the final
state and the trace of passes with the override each one saw. -/
def renderFrame (st : PipeState) : PipeState × List RenderEvent :=
  let st1 : PipeState := { st with overrideMaterial := some OverrideMat.normalMaterial }
  let st2 : PipeState := { st1 with renderTarget := some Target.normalRT }
  let e1 : RenderEvent := ⟨PassName.normalPass, st2.overrideMaterial⟩
  let st3 : PipeState := { st2 with overrideMaterial := none }
  let st4 : PipeState := { st3 with renderTarget := some Target.depthRT }
  let e2 : RenderEvent := ⟨PassName.depthPass, st4.overrideMaterial⟩
  let st5 : PipeState := { st4 with renderTarget := none }
  let e3 : RenderEvent := ⟨PassName.composite, st5.overrideMaterial⟩
  (st5, [e1, e2, e3])

end Pipeline

namespace ToonMaterials

/-- Material slots of every mesh in a tree, in traversal order. -/
def meshSlotsData (d : NodeData) : List MatSlot :=
  match d.meshData with
  | none => []
  | some md => [md.material]

mutual

/-- Material slots of every mesh reached from an object, in traversal order. -/
def meshSlots : Obj → List MatSlot
  | Obj.node d cs => meshSlotsData d ++ meshSlotsList cs

/-- Material slots of every mesh reached from a list of children. -/
def meshSlotsList : List Obj → List MatSlot
  | [] => []
  | c :: cs => meshSlots c ++ meshSlotsList cs

end

theorem stripData_applyToonData (g : Texture) (d : NodeData) :
    stripData (applyToonData g d) = stripData d := by
  rcases d with ⟨n, t, md⟩
  cases md <;> simp [applyToonData, stripData]

mutual

theorem stripObj_applyToonObj (g : Texture) : (o : Obj) →
    stripObj (applyToonObj g o) = stripObj o
  | Obj.node d cs => by
    rw [applyToonObj, stripObj, stripObj, stripList_applyToonList g cs,
      stripData_applyToonData g d]

theorem stripList_applyToonList (g : Texture) : (l : List Obj) →
    stripList (applyToonList g l) = stripList l
  | [] => rfl
  | c :: cs => by
    rw [applyToonList, stripList, stripList, stripObj_applyToonObj g c,
      stripList_applyToonList g cs]

end

theorem meshSlotsData_applyToonData (g : Texture) (d : NodeData) :
    meshSlotsData (applyToonData g d) = (meshSlotsData d).map (applyToonSlot g) := by
  rcases d with ⟨n, t, md⟩
  cases md <;> simp [applyToonData, meshSlotsData]

mutual

theorem meshSlots_applyToonObj (g : Texture) : (o : Obj) →
    meshSlots (applyToonObj g o) = (meshSlots o).map (applyToonSlot g)
  | Obj.node d cs => by
    rw [applyToonObj, meshSlots, meshSlots, meshSlotsList_applyToonList g cs,
      meshSlotsData_applyToonData g d, List.map_append]

theorem meshSlotsList_applyToonList (g : Texture) : (l : List Obj) →
    meshSlotsList (applyToonList g l) = (meshSlotsList l).map (applyToonSlot g)
  | [] => rfl
  | c :: cs => by
    rw [applyToonList, meshSlotsList, meshSlotsList, meshSlots_applyToonObj g c,
      meshSlotsList_applyToonList g cs, List.map_append]

end

/-- Concrete source material used by witnesses: a colored, textured,
half-transparent double-sided material. -/
def wMat : Material :=
  { color := some 0x123456
    map := some ⟨7, ColorSpace.linearSRGB⟩
    gradientMap := none
    transparent := true
    opacity := 1/2
    side := Side.double }

/-- Second concrete source material used by witnesses: no color, no map. -/
def wMat2 : Material :=
  { color := none
    map := none
    gradientMap := none
    transparent := false
    opacity := 1
    side := Side.front }

/-- Concrete gradient ramp used by witnesses. -/
def wRamp : Texture := ⟨3, ColorSpace.noColorSpace⟩

/-- Claim C5: every mesh reached by `applyToonMaterial` gets each material
slot rewritten by `deriveToonMaterial`, and the derived material preserves
the base color, albedo texture, transparency, opacity and side of the
source, references the supplied gradient ramp, defaults a missing color to
opaque white `0xffffff`, keeps a missing albedo texture missing, and tags a
present albedo texture with the sRGB color space. -/
theorem toon_derivation_preserves (g : Texture) (m : Material) (o : Obj) (c : ℕ) (t : Texture)
    (hc : m.color = some c) (ht : m.map = some t) :
    meshSlots (applyToonObj g o) = (meshSlots o).map (applyToonSlot g) ∧
    (deriveToonMaterial g m).color = some c ∧
    (deriveToonMaterial g m).map = some ⟨t.texId, ColorSpace.srgb⟩ ∧
    (deriveToonMaterial g m).gradientMap = some g ∧
    (deriveToonMaterial g m).transparent = m.transparent ∧
    (deriveToonMaterial g m).opacity = m.opacity ∧
    (deriveToonMaterial g m).side = m.side ∧
    (∀ m2 : Material, m2.color = none → (deriveToonMaterial g m2).color = some 0xffffff) ∧
    (∀ m2 : Material, m2.map = none → (deriveToonMaterial g m2).map = none) := by
  refine ⟨meshSlots_applyToonObj g o, ?_, ?_, rfl, rfl, rfl, rfl, ?_, ?_⟩
  · simp [deriveToonMaterial, hc]
  · simp [deriveToonMaterial, ht]
  · intro m2 h2; simp [deriveToonMaterial, h2]
  · intro m2 h2; simp [deriveToonMaterial, h2]

/-- Claim C5 witness: concrete source material and gradient ramp. -/
theorem toon_derivation_preserves_check :
    (wMat.color = some 0x123456 ∧ wMat.map = some ⟨7, ColorSpace.linearSRGB⟩) ∧
    (deriveToonMaterial wRamp wMat).color = some 0x123456 ∧
    (deriveToonMaterial wRamp wMat).map = some ⟨7, ColorSpace.srgb⟩ ∧
    (deriveToonMaterial wRamp wMat).gradientMap = some wRamp ∧
    (deriveToonMaterial wRamp wMat).transparent = wMat.transparent ∧
    (deriveToonMaterial wRamp wMat).opacity = wMat.opacity ∧
    (deriveToonMaterial wRamp wMat).side = wMat.side := by
  have h := toon_derivation_preserves wRamp wMat (Obj.node ⟨"root", 0, none⟩ [])
    0x123456 ⟨7, ColorSpace.linearSRGB⟩ rfl rfl
  exact ⟨⟨rfl, rfl⟩, h.2.1, h.2.2.1, h.2.2.2.1, h.2.2.2.2.1,
    h.2.2.2.2.2.1, h.2.2.2.2.2.2.1⟩

/-- Claim C6: a mesh with N material slots receives exactly N derived
materials in the original slot order, and the assigned value is a bare
(non-collection) material exactly when one slot existed, a one-element
collection being collapsed to its derived element. -/
theorem slot_arity_preserved (g : Texture) (s : MatSlot)
    (hN : 1 ≤ (slotMaterials s).length) :
    slotMaterials (applyToonSlot g s) = (slotMaterials s).map (deriveToonMaterial g) ∧
    (slotMaterials (applyToonSlot g s)).length = (slotMaterials s).length ∧
    (isSingle (applyToonSlot g s) = true ↔ (slotMaterials s).length = 1) ∧
    (∀ m : Material,
      applyToonSlot g (MatSlot.collection [m]) = MatSlot.single (deriveToonMaterial g m)) := by
  refine ⟨?_, ?_, ?_, fun m => rfl⟩ <;>
    rcases s with m | ms
  · rfl
  · rcases ms with _ | ⟨m1, _ | ⟨m2, ms⟩⟩ <;> rfl
  · rfl
  · rcases ms with _ | ⟨m1, _ | ⟨m2, ms⟩⟩ <;> simp [applyToonSlot, slotMaterials]
  · simp [applyToonSlot, slotMaterials, isSingle]
  · rcases ms with _ | ⟨m1, _ | ⟨m2, ms⟩⟩ <;> simp [applyToonSlot, slotMaterials, isSingle]

/-- Claim C6 witness: a two-slot collection keeps two derived materials in
order and stays a collection; the hypothesis `N ≥ 1` holds there. -/
theorem slot_arity_preserved_check :
    1 ≤ (slotMaterials (MatSlot.collection [wMat, wMat2])).length ∧
    (slotMaterials (applyToonSlot wRamp (MatSlot.collection [wMat, wMat2])) =
      [deriveToonMaterial wRamp wMat, deriveToonMaterial wRamp wMat2] ∧
    (slotMaterials (applyToonSlot wRamp (MatSlot.collection [wMat, wMat2]))).length = 2 ∧
    isSingle (applyToonSlot wRamp (MatSlot.collection [wMat, wMat2])) = false) := by
  have h := slot_arity_preserved wRamp (MatSlot.collection [wMat, wMat2]) (by decide)
  refine ⟨by decide, by rw [h.1]; rfl, by rw [h.2.1]; rfl, ?_⟩
  have h3 := h.2.2.1
  rcases hi : isSingle (applyToonSlot wRamp (MatSlot.collection [wMat, wMat2]))
  · rfl
  · exact absurd (h3.mp hi) (by decide)

/-- Claim C7 counterexample: deriving from an already-derived toon material
does preserve the derived parameters at this concrete source material — the
second derivation from the toon material equals the first derivation, base
color and texture included — refuting the asserted loss of the base
color/texture association. -/
theorem rederive_from_toon_preserves :
    deriveToonMaterial wRamp (deriveToonMaterial wRamp wMat) = deriveToonMaterial wRamp wMat ∧
    (deriveToonMaterial wRamp (deriveToonMaterial wRamp wMat)).color =
      (deriveToonMaterial wRamp wMat).color ∧
    (deriveToonMaterial wRamp (deriveToonMaterial wRamp wMat)).map =
      (deriveToonMaterial wRamp wMat).map := by
  refine ⟨?_, ?_, ?_⟩ <;> rfl

/-- Claim C7 amended: derivation from the backup is deterministic, and
re-derivation is idempotent from either source — a derived toon material
retains the base color, texture, transparency, opacity and side that the
derivation reads, so deriving from it again yields the same derived
parameters as deriving from the backup. -/
theorem rederive_idempotent (g : Texture) (m : Material) :
    deriveToonMaterial g m = deriveToonMaterial g m ∧
    deriveToonMaterial g (deriveToonMaterial g m) = deriveToonMaterial g m := by
  refine ⟨rfl, ?_⟩
  rcases m with ⟨c, mp, gm, tr, op, sd⟩
  cases mp <;> simp [deriveToonMaterial]

/-- Claim C10: the `applyToonMaterial` traversal changes nothing but the
material slots of mesh nodes — erasing materials from the rewritten tree
gives back the erasure of the original tree (names, transforms, geometry,
child structure and non-mesh nodes all agree), and a non-mesh node datum is
mapped to itself. -/
theorem traversal_touches_only_materials (g : Texture) (o : Obj) (n : String) (t : ℤ) :
    stripObj (applyToonObj g o) = stripObj o ∧
    applyToonData g ⟨n, t, none⟩ = ⟨n, t, none⟩ :=
  ⟨stripObj_applyToonObj g o, rfl⟩

end ToonMaterials

namespace Demo

/-- Concrete display state with one model (id 5) in the scene and current. -/
def wDisplay : DisplayState := ⟨[5], some 5, []⟩

/-- Claim C8 counterexample: at a state displaying model 5, a failing
`loadModel` call leaves the scene without the prior model and with its
resources disposed — the cleanup prologue runs before the load outcome is
known — refuting that the prior model remains in the scene undisposed. -/
theorem load_failure_removes_prior :
    (loadModel wDisplay LoadResult.err).1.sceneModels = [] ∧
    ¬ 5 ∈ (loadModel wDisplay LoadResult.err).1.sceneModels ∧
    5 ∈ (loadModel wDisplay LoadResult.err).1.disposed := by
  refine ⟨?_, ?_, ?_⟩ <;> decide

/-- Claim C8 amended: a load failure is reported and non-fatal (the flow
returns normally with the reported flag set), but the previously displayed
model does not survive it: the cleanup prologue of `loadModel` has already
removed it from the scene, disposed its resources and cleared the current
reference before the error callback fires. -/
theorem load_failure_state (st : DisplayState) (m : ℕ) (hm : st.currentModel = some m) :
    (loadModel st LoadResult.err).2 = true ∧
    (loadModel st LoadResult.err).1.currentModel = none ∧
    ¬ m ∈ (loadModel st LoadResult.err).1.sceneModels ∧
    m ∈ (loadModel st LoadResult.err).1.disposed := by
  refine ⟨rfl, ?_, ?_, ?_⟩ <;> simp [loadModel, cleanupCurrent, hm]

/-- Claim C8 amended witness: the amended statement at the concrete state
displaying model 5. -/
theorem load_failure_state_check :
    wDisplay.currentModel = some 5 ∧
    ((loadModel wDisplay LoadResult.err).2 = true ∧
      (loadModel wDisplay LoadResult.err).1.currentModel = none ∧
      ¬ 5 ∈ (loadModel wDisplay LoadResult.err).1.sceneModels ∧
      5 ∈ (loadModel wDisplay LoadResult.err).1.disposed) :=
  ⟨rfl, load_failure_state wDisplay 5 rfl⟩

end Demo

namespace Pipeline

/-- Claim C9: in every execution of `render()`, the scene-wide override is
the normal material only for the normal pass; the depth pass and the final
composite both see no override, and the frame ends with no override
persisted, so subsequent passes and frames read the true scene materials. -/
theorem render_override_scoped (st : PipeState) :
    (renderFrame st).2 =
      [⟨PassName.normalPass, some OverrideMat.normalMaterial⟩,
       ⟨PassName.depthPass, none⟩,
       ⟨PassName.composite, none⟩] ∧
    (renderFrame st).1.overrideMaterial = none :=
  ⟨rfl, rfl⟩

end Pipeline

namespace ToonShader

theorem glClamp_nonneg (x : ℝ) : 0 ≤ glClamp x 0 1 :=
  le_min (le_max_right x 0) zero_le_one

theorem glClamp_le_one (x : ℝ) : glClamp x 0 1 ≤ 1 :=
  min_le_right _ _

theorem glClamp_mono (x y : ℝ) (h : x ≤ y) : glClamp x 0 1 ≤ glClamp y 0 1 :=
  min_le_min (max_le_max h le_rfl) le_rfl

theorem glClamp_eq_one (x : ℝ) (h : 1 ≤ x) : glClamp x 0 1 = 1 := by
  unfold glClamp
  rw [max_eq_left (le_trans zero_le_one h), min_eq_right h]

theorem smoothstep_saturated (e0 e1 x : ℝ) (h : e0 < e1) (hx : e1 ≤ x) :
    smoothstep e0 e1 x = 1 := by
  have h1 : (1 : ℝ) ≤ (x - e0) / (e1 - e0) := (one_le_div (by linarith)).mpr (by linarith)
  simp only [smoothstep]
  rw [glClamp_eq_one _ h1]
  norm_num

theorem smoothstep_vanishes (e0 e1 x : ℝ) (h : e0 < e1) (hx : x ≤ e0) :
    smoothstep e0 e1 x = 0 := by
  have h1 : (x - e0) / (e1 - e0) ≤ 0 :=
    div_nonpos_iff.mpr (Or.inr ⟨by linarith, by linarith⟩)
  simp only [smoothstep, glClamp]
  rw [max_eq_right h1, min_eq_left zero_le_one]
  norm_num

/-- Concrete uniforms used by the shader witnesses: unit resolution and
thickness, `near = 1`, `far = 2`, a depth texture that is `1` on the right
half-plane `x ≥ 1` and `0` elsewhere, constant diffuse color, constant
normals, black outline. -/
noncomputable def wu : EdgeUniforms where
  tDiffuse := fun _ => (1, 1/2, 1/4, 1)
  tDepth := fun p => if 1 ≤ p.1 then 1 else 0
  tNormal := fun _ => (0, 0, 0)
  resolution := (1, 1)
  cameraNear := 1
  cameraFar := 2
  outlineThickness := 1
  outlineColor := (0, 0, 0)

/-- Claim C4: `getLinearDepth` linearizes via the stated formula and, for
fixed `0 < near < far`, is strictly increasing in the raw depth sample over
`[0, 1)`; the shader-level sampler is the composition with `tDepth`. -/
theorem linear_depth_reconstruction (u : EdgeUniforms) (uv : Vec2) (near far z₁ z₂ : ℝ)
    (hn : 0 < near) (hnf : near < far) (h0 : 0 ≤ z₁) (h12 : z₁ < z₂) (h1 : z₂ < 1) :
    getLinearDepth u uv = linearizeDepth u.cameraNear u.cameraFar (u.tDepth uv) ∧
    linearizeDepth near far z₁ =
      (2 * near * far) / (far + near - (2 * z₁ - 1) * (far - near)) ∧
    linearizeDepth near far z₁ < linearizeDepth near far z₂ := by
  have hf : 0 < far := lt_trans hn hnf
  have hfn : 0 < far - near := by linarith
  have hnum : 0 < 2 * near * far := by positivity
  have hk2 : (2 * z₂ - 1) * (far - near) < 1 * (far - near) :=
    mul_lt_mul_of_pos_right (by linarith) hfn
  have hd2 : 0 < far + near - (2 * z₂ - 1) * (far - near) := by nlinarith
  have hk12 : (2 * z₁ - 1) * (far - near) < (2 * z₂ - 1) * (far - near) :=
    mul_lt_mul_of_pos_right (by linarith) hfn
  have hlt : far + near - (2 * z₂ - 1) * (far - near)
      < far + near - (2 * z₁ - 1) * (far - near) := by linarith
  exact ⟨rfl, rfl, div_lt_div_of_pos_left hnum hd2 hlt⟩

/-- Claim C4 witness: `near = 1`, `far = 2`, samples `0 < 1/2`. -/
theorem linear_depth_reconstruction_check :
    ((0:ℝ) < 1 ∧ (1:ℝ) < 2 ∧ (0:ℝ) ≤ 0 ∧ (0:ℝ) < 1/2 ∧ (1/2:ℝ) < 1) ∧
    (getLinearDepth wu ((0:ℝ), (0:ℝ)) =
        linearizeDepth wu.cameraNear wu.cameraFar (wu.tDepth ((0:ℝ), (0:ℝ))) ∧
      linearizeDepth 1 2 0 = (2 * 1 * 2) / (2 + 1 - (2 * 0 - 1) * (2 - 1)) ∧
      linearizeDepth 1 2 0 < linearizeDepth 1 2 (1/2)) :=
  ⟨by norm_num,
    linear_depth_reconstruction wu ((0:ℝ), (0:ℝ)) 1 2 0 (1/2)
      (by norm_num) (by norm_num) le_rfl (by norm_num) (by norm_num)⟩

/-- Claim C2: the Edge Filter Pass output equals the unmodified input color
whenever the raw depth sample is at or above `0.9999` (skybox/background)
or the combined edge value is at most `0.1`; no blending happens in either
case. -/
theorem skybox_low_edge_passthrough (u : EdgeUniforms) (uv : Vec2)
    (h : 0.9999 ≤ u.tDepth uv ∨ edgeValue u uv ≤ 0.1) :
    fragMain u uv = u.tDiffuse uv := by
  rcases h with h | h
  · simp only [fragMain]
    rw [if_pos h]
  · simp only [fragMain]
    by_cases hd : (0.9999 : ℝ) ≤ u.tDepth uv
    · rw [if_pos hd]
    · rw [if_neg hd, if_neg (not_lt.mpr h)]

theorem wu_texel : texel wu = ((1:ℝ), (1:ℝ)) := by
  norm_num [texel, wu]

theorem wu_lin_top : getLinearDepth wu ((0:ℝ), (1:ℝ)) = 1 := by
  simp only [getLinearDepth, wu]
  norm_num [linearizeDepth]

theorem wu_lin_bottom : getLinearDepth wu ((0:ℝ), (-1:ℝ)) = 1 := by
  simp only [getLinearDepth, wu]
  norm_num [linearizeDepth]

theorem wu_lin_left : getLinearDepth wu ((-1:ℝ), (0:ℝ)) = 1 := by
  simp only [getLinearDepth, wu]
  norm_num [linearizeDepth]

theorem wu_lin_right : getLinearDepth wu ((1:ℝ), (0:ℝ)) = 2 := by
  simp only [getLinearDepth, wu]
  norm_num [linearizeDepth]

theorem wu_depth_ind : depthIndicator wu ((0:ℝ), (0:ℝ)) = 1 := by
  simp only [depthIndicator, wu_texel]
  norm_num [wu_lin_top, wu_lin_bottom, wu_lin_left, wu_lin_right, Real.sqrt_one]
  exact smoothstep_saturated _ _ _ (by norm_num) (by norm_num)

theorem wu_normal_ind : normalIndicator wu ((0:ℝ), (0:ℝ)) = 0 := by
  simp only [normalIndicator, wu]
  norm_num [sub3, dot3]
  exact smoothstep_vanishes _ _ _ (by norm_num) (by norm_num)

theorem wu_edge : edgeValue wu ((0:ℝ), (0:ℝ)) = 1 := by
  rw [edgeValue, wu_depth_ind, wu_normal_ind]
  exact max_eq_left (by norm_num)

theorem wu_raw_center : wu.tDepth ((0:ℝ), (0:ℝ)) < 0.9999 := by
  simp only [wu]
  norm_num

/-- Claim C2 witness: at a skybox pixel of the concrete uniforms the output
is the input color. -/
theorem skybox_low_edge_passthrough_check :
    (0.9999 ≤ wu.tDepth ((5:ℝ), (5:ℝ)) ∨ edgeValue wu ((5:ℝ), (5:ℝ)) ≤ 0.1) ∧
    fragMain wu ((5:ℝ), (5:ℝ)) = wu.tDiffuse ((5:ℝ), (5:ℝ)) := by
  have h : (0.9999 : ℝ) ≤ wu.tDepth ((5:ℝ), (5:ℝ)) := by
    simp only [wu]
    norm_num
  exact ⟨Or.inl h, skybox_low_edge_passthrough wu ((5:ℝ), (5:ℝ)) (Or.inl h)⟩

/-- Claim C1: for a processed pixel (raw depth below `0.9999`) the
depth-edge indicator is `smoothstep 0.5 0.6` of the Euclidean norm of the
right-minus-left and top-minus-bottom linear-depth differences at one
thickness-scaled texel, the normal-edge indicator is `smoothstep 0.08 0.13`
of the summed squared componentwise differences of the normal samples at
the same offsets, and the combined edge value is their maximum. -/
theorem edge_indicator_formulas (u : EdgeUniforms) (uv : Vec2)
    (h : u.tDepth uv < 0.9999) :
    depthIndicator u uv = smoothstep 0.5 0.6 (Real.sqrt
        ((getLinearDepth u (uv.1 + (texel u).1, uv.2)
            - getLinearDepth u (uv.1 - (texel u).1, uv.2)) ^ 2
          + (getLinearDepth u (uv.1, uv.2 + (texel u).2)
            - getLinearDepth u (uv.1, uv.2 - (texel u).2)) ^ 2)) ∧
    normalIndicator u uv = smoothstep 0.08 0.13
        (((u.tNormal (uv.1 + (texel u).1, uv.2)).1
            - (u.tNormal (uv.1 - (texel u).1, uv.2)).1) ^ 2
          + ((u.tNormal (uv.1 + (texel u).1, uv.2)).2.1
            - (u.tNormal (uv.1 - (texel u).1, uv.2)).2.1) ^ 2
          + ((u.tNormal (uv.1 + (texel u).1, uv.2)).2.2
            - (u.tNormal (uv.1 - (texel u).1, uv.2)).2.2) ^ 2
          + (((u.tNormal (uv.1, uv.2 + (texel u).2)).1
            - (u.tNormal (uv.1, uv.2 - (texel u).2)).1) ^ 2
          + ((u.tNormal (uv.1, uv.2 + (texel u).2)).2.1
            - (u.tNormal (uv.1, uv.2 - (texel u).2)).2.1) ^ 2
          + ((u.tNormal (uv.1, uv.2 + (texel u).2)).2.2
            - (u.tNormal (uv.1, uv.2 - (texel u).2)).2.2) ^ 2)) ∧
    edgeValue u uv = max (depthIndicator u uv) (normalIndicator u uv) := by
  refine ⟨?_, ?_, rfl⟩
  · simp only [depthIndicator]
    rw [show (0.5 + 0.1 : ℝ) = 0.6 by norm_num]
    congr 1
    congr 1
    ring
  · simp only [normalIndicator, sub3, dot3]
    rw [show (0.08 + 0.05 : ℝ) = 0.13 by norm_num]
    congr 1
    ring

/-- Claim C1 witness: the indicator formulas at the concrete uniforms and
the processed pixel `(0, 0)`. -/
theorem edge_indicator_formulas_check :
    wu.tDepth ((0:ℝ), (0:ℝ)) < 0.9999 ∧
    (depthIndicator wu ((0:ℝ), (0:ℝ)) = smoothstep 0.5 0.6 (Real.sqrt
        ((getLinearDepth wu ((0:ℝ) + (texel wu).1, (0:ℝ))
            - getLinearDepth wu ((0:ℝ) - (texel wu).1, (0:ℝ))) ^ 2
          + (getLinearDepth wu ((0:ℝ), (0:ℝ) + (texel wu).2)
            - getLinearDepth wu ((0:ℝ), (0:ℝ) - (texel wu).2)) ^ 2)) ∧
      normalIndicator wu ((0:ℝ), (0:ℝ)) = smoothstep 0.08 0.13
        (((wu.tNormal ((0:ℝ) + (texel wu).1, (0:ℝ))).1
            - (wu.tNormal ((0:ℝ) - (texel wu).1, (0:ℝ))).1) ^ 2
          + ((wu.tNormal ((0:ℝ) + (texel wu).1, (0:ℝ))).2.1
            - (wu.tNormal ((0:ℝ) - (texel wu).1, (0:ℝ))).2.1) ^ 2
          + ((wu.tNormal ((0:ℝ) + (texel wu).1, (0:ℝ))).2.2
            - (wu.tNormal ((0:ℝ) - (texel wu).1, (0:ℝ))).2.2) ^ 2
          + (((wu.tNormal ((0:ℝ), (0:ℝ) + (texel wu).2)).1
            - (wu.tNormal ((0:ℝ), (0:ℝ) - (texel wu).2)).1) ^ 2
          + ((wu.tNormal ((0:ℝ), (0:ℝ) + (texel wu).2)).2.1
            - (wu.tNormal ((0:ℝ), (0:ℝ) - (texel wu).2)).2.1) ^ 2
          + ((wu.tNormal ((0:ℝ), (0:ℝ) + (texel wu).2)).2.2
            - (wu.tNormal ((0:ℝ), (0:ℝ) - (texel wu).2)).2.2) ^ 2)) ∧
      edgeValue wu ((0:ℝ), (0:ℝ)) =
        max (depthIndicator wu ((0:ℝ), (0:ℝ))) (normalIndicator wu ((0:ℝ), (0:ℝ)))) :=
  ⟨wu_raw_center, edge_indicator_formulas wu ((0:ℝ), (0:ℝ)) wu_raw_center⟩

/-- Claim C3: past the edge threshold the output blends toward the outline
color with weight `clamp(12 / (2 + centerLinearDepth), 0, 1) * edge`; the
weight is within `[0, 1]` for nonnegative depth and edge value in `[0, 1]`,
is non-increasing in the depth, and equals the edge value whenever the
depth is at most `10`. -/
theorem outline_blend_weight (u : EdgeUniforms) (uv : Vec2) (d₁ d₂ e : ℝ)
    (hraw : u.tDepth uv < 0.9999) (hedge : 0.1 < edgeValue u uv)
    (hd₁ : 0 ≤ d₁) (hdd : d₁ ≤ d₂) (he₀ : 0 ≤ e) (he₁ : e ≤ 1) :
    fragMain u uv = mix4 (u.tDiffuse uv)
        (u.outlineColor.1, u.outlineColor.2.1, u.outlineColor.2.2, 1)
        (lineAlpha (getLinearDepth u uv) * edgeValue u uv) ∧
    0 ≤ lineAlpha d₁ * e ∧ lineAlpha d₁ * e ≤ 1 ∧
    lineAlpha d₂ * e ≤ lineAlpha d₁ * e ∧
    (d₁ ≤ 10 → lineAlpha d₁ * e = e) := by
  refine ⟨?_, ?_, ?_, ?_, ?_⟩
  · simp only [fragMain]
    rw [if_neg (not_le.mpr hraw), if_pos hedge]
  · exact mul_nonneg (glClamp_nonneg _) he₀
  · calc lineAlpha d₁ * e ≤ 1 * e := mul_le_mul_of_nonneg_right (glClamp_le_one _) he₀
      _ = e := one_mul e
      _ ≤ 1 := he₁
  · refine mul_le_mul_of_nonneg_right ?_ he₀
    have h1 : (0 : ℝ) < 2 + d₁ := by linarith
    have h2 : (0 : ℝ) < 2 + d₂ := by linarith
    exact glClamp_mono _ _ ((div_le_div_iff_of_pos_left (by norm_num) h2 h1).mpr (by linarith))
  · intro h10
    have h1 : (0 : ℝ) < 2 + d₁ := by linarith
    have hge : (1 : ℝ) ≤ 12 / (2 + d₁) := (one_le_div h1).mpr (by linarith)
    rw [lineAlpha, glClamp_eq_one _ hge, one_mul]

/-- Claim C3 witness: the blend equation and the weight facts at the
concrete uniforms, pixel `(0, 0)`, depths `1 ≤ 3` and edge value `1/2`. -/
theorem outline_blend_weight_check :
    (wu.tDepth ((0:ℝ), (0:ℝ)) < 0.9999 ∧ 0.1 < edgeValue wu ((0:ℝ), (0:ℝ)) ∧
      (0:ℝ) ≤ 1 ∧ (1:ℝ) ≤ 3 ∧ (0:ℝ) ≤ 1/2 ∧ (1/2:ℝ) ≤ 1) ∧
    (fragMain wu ((0:ℝ), (0:ℝ)) = mix4 (wu.tDiffuse ((0:ℝ), (0:ℝ)))
        (wu.outlineColor.1, wu.outlineColor.2.1, wu.outlineColor.2.2, 1)
        (lineAlpha (getLinearDepth wu ((0:ℝ), (0:ℝ))) * edgeValue wu ((0:ℝ), (0:ℝ))) ∧
      0 ≤ lineAlpha 1 * (1/2) ∧ lineAlpha 1 * (1/2) ≤ 1 ∧
      lineAlpha 3 * (1/2) ≤ lineAlpha 1 * (1/2) ∧
      ((1:ℝ) ≤ 10 → lineAlpha 1 * (1/2) = 1/2)) := by
  have hedge : (0.1 : ℝ) < edgeValue wu ((0:ℝ), (0:ℝ)) := by
    rw [wu_edge]
    norm_num
  exact ⟨⟨wu_raw_center, hedge, by norm_num, by norm_num, by norm_num, by norm_num⟩,
    outline_blend_weight wu ((0:ℝ), (0:ℝ)) 1 3 (1/2) wu_raw_center hedge
      (by norm_num) (by norm_num) (by norm_num) (by norm_num)⟩

end ToonShader
